import Mathlib

/-!
Shallow embedding of `src/sitn-product-search.ts` (the `SitnProductSearch`
custom element): a search widget that queries a paginated product catalog,
debounces keystrokes, aborts superseded fresh-search requests, and extends
the result list via an IntersectionObserver-driven `fetchMoreProducts`.

The embedding models the class fields (`products`, `loading`, `nextPage`,
`abortController`, `debounceTimer`, `observer`) as a `CtrlState`, the DOM
output of `updateList` / `updateLoadingState` / `render` as an append-only
log of `RenderEv` values, and the event loop as a step relation over a
`World` that also tracks the in-flight requests.  All mutations in the
source happen synchronously inside event-loop callbacks, so each callback
(timer fire, fetch completion, visibility trigger, lifecycle hook) is one
atomic `step` on the `World`.
-/

/-- Translation of `interface Product` from the source: one catalog entry. -/
structure Product where
  label : String
  metadata : String
deriving DecidableEq, Repr

/-- Translation of `interface ApiResponse` from the source: one page of the catalog API. -/
structure ApiResponse where
  count : Nat
  next : Option String
  previous : Option String
  results : List Product
deriving DecidableEq, Repr

/-- One rendered suggestion row built by `updateList`: the `div.suggestion-item`
with its anchor.  `href` is the anchor's `href`; `clickUrl` is the URL passed to
`window.open` by the row's `onclick` handler; `even` records the `even` class
added when `index % 2 === 1`. -/
structure RenderedItem where
  label : String
  href : String
  clickUrl : String
  even : Bool
deriving DecidableEq, Repr

/-- Translation of the row-building loop body of `updateList` (lines 164-181 of
the source): `item.onclick = () => window.open(metadata + "/html/", "_blank")`
and `link.href = metadata + "/html/"`. -/
def renderItem (idx : Nat) (p : Product) : RenderedItem :=
  { label := p.label
    href := p.metadata ++ "/html/"
    clickUrl := p.metadata ++ "/html/"
    even := idx % 2 == 1 }

/-- The full list of rendered rows for a products list, in order. -/
def renderItems (ps : List Product) : List RenderedItem :=
  ps.enum.map (fun ip => renderItem ip.1 ip.2)

/-- Visible DOM output events. `full` is the initial `render()` (whole shadow
DOM rebuilt); `loadingState b` is `updateLoadingState` observing `loading = b`;
`list` is one `updateList` pass: the rendered rows, whether the `suggested`
class is set on the input, whether a sentinel `div` was appended (products
non-empty and a next page exists), whether the no-results
element was shown, and whether the trailing loading indicator was re-added. -/
inductive RenderEv where
  | full
  | loadingState (visible : Bool)
  | list (items : List RenderedItem) (suggested : Bool) (sentinel : Bool)
      (noResults : Bool) (loadingTail : Bool)
deriving DecidableEq, Repr

/-- IntersectionObserver operations performed on the platform, in order:
`observe id` is `new IntersectionObserver(...).observe(sentinel)` for the
observer instance numbered `id`; `disconnect id` is `observer.disconnect()`. -/
inductive ObsOp where
  | observe (id : Nat)
  | disconnect (id : Nat)
deriving DecidableEq, Repr

/-- The fields of the `SitnProductSearch` instance, plus observational logs.

`gen` counts `fetchProducts` invocations: each invocation replaces
`this.abortController`, so `gen` is the identity of the current controller and
a fresh request tagged `g` has been aborted exactly when `g <` the current
`gen`.  `debounce` is the pending `debounceTimer` with the term its callback
captured.  `observer` is the `this.observer` reference (note the source's
`disconnectedCallback` disconnects it but does not null the field);
`liveObs` lists the observer instances that are currently observing (created
and not yet disconnected); `nextObsId` numbers observer instances.
`renders` and `obsLog` are append-only logs of the visible output. -/
structure CtrlState where
  products : List Product
  loading : Bool
  nextPage : Option String
  gen : Nat
  debounce : Option String
  observer : Option Nat
  nextObsId : Nat
  liveObs : List Nat
  obsLog : List ObsOp
  renders : List RenderEv
  connected : Bool
deriving DecidableEq, Repr

/-- Translation of `updateLoadingState` (lines 132-151): adds or removes the loading
indicator according to `this.loading`; modelled as logging the value shown. -/
def updateLoadingState (c : CtrlState) : CtrlState :=
  { c with renders := c.renders ++ [RenderEv.loadingState c.loading] }

/-- Translation of `setupIntersectionObserver` (lines 209-227): disconnect the previous
observer if any, create a new instance, observe the sentinel. -/
def setupIntersectionObserver (c : CtrlState) : CtrlState :=
  match c.observer with
  | some k =>
      { c with observer := some c.nextObsId
               nextObsId := c.nextObsId + 1
               liveObs := (c.liveObs.erase k) ++ [c.nextObsId]
               obsLog := c.obsLog ++ [ObsOp.disconnect k, ObsOp.observe c.nextObsId] }
  | none =>
      { c with observer := some c.nextObsId
               nextObsId := c.nextObsId + 1
               liveObs := c.liveObs ++ [c.nextObsId]
               obsLog := c.obsLog ++ [ObsOp.observe c.nextObsId] }

/-- The `RenderEv.list` event `updateList` emits from a given state: rows from
`products`; `suggested` is added in both the non-empty branch and the
empty-and-not-loading branch; a sentinel is appended when products are
non-empty and `nextPage` exists; the no-results element when products are
empty and not loading; the trailing loading indicator when `loading`. -/
def renderListEv (c : CtrlState) : RenderEv :=
  RenderEv.list (renderItems c.products)
    (!c.products.isEmpty || !c.loading)
    (!c.products.isEmpty && c.nextPage.isSome)
    (c.products.isEmpty && !c.loading)
    c.loading

/-- Translation of `updateList` (lines 153-207): rebuild the dropdown contents from
`this.products`, and, when products are non-empty and `this.nextPage` exists,
append a sentinel and call `setupIntersectionObserver` on it.  Note that when
no sentinel is appended the method leaves `this.observer` untouched: nothing
in this path disconnects a previously attached observer. -/
def updateList (c : CtrlState) : CtrlState :=
  let c1 := { c with renders := c.renders ++ [renderListEv c] }
  if !c.products.isEmpty && c.nextPage.isSome then setupIntersectionObserver c1 else c1

/-- Outcome delivered to an in-flight request's continuation.  `errNetwork`
covers a transport failure or `!response.ok`; `errParse` a `response.json()`
failure; `errAbort` the `AbortError` produced when the request's
`AbortController` was signalled. -/
inductive Outcome where
  | ok (data : ApiResponse)
  | errNetwork
  | errParse
  | errAbort
deriving DecidableEq, Repr

/-- True for the three failure outcomes. -/
def Outcome.isError : Outcome → Bool
  | .ok _ => false
  | _ => true

/-- The world: the element's state plus the event-loop artifacts.
`pendingFresh` lists the in-flight `fetchProducts` requests as
(controller id = generation, search term); `pendingCont` lists the in-flight
`fetchMoreProducts` requests by the generation current at their issuance.
`pages` is a ghost field recording, in fetch order, the result pages fetched
for the current generation (reset when `fetchProducts` starts a new
generation; a continuation page counts only if its request was issued under
the current generation). -/
structure World where
  ctrl : CtrlState
  pendingFresh : List (Nat × String)
  pendingCont : List Nat
  pages : List (List Product)
deriving DecidableEq, Repr

/-- The synchronous prefix of `fetchProducts` (lines 74-91): abort the current
controller (making every older pending fresh request stale), install a new
one (`gen + 1`), set `loading = true`, call `updateLoadingState`, and issue
the request. -/
def fetchProductsStart (term : String) (w : World) : World :=
  let g := w.ctrl.gen + 1
  let c := updateLoadingState { w.ctrl with gen := g, loading := true }
  { w with ctrl := c, pendingFresh := w.pendingFresh ++ [(g, term)], pages := [] }

/-- The continuation of `fetchProducts` after its awaits (lines 93-106): on
success replace `products`, set `nextPage`, clear `loading`, `updateList`; in
the catch block, return silently on `AbortError`, otherwise clear `loading`
and `updateList` (note: `products` is not assigned in the catch block). -/
def fetchProductsDone (o : Outcome) (c : CtrlState) : CtrlState :=
  match o with
  | .ok data => updateList { c with products := data.results, nextPage := data.next, loading := false }
  | .errAbort => c
  | _ => updateList { c with loading := false }

/-- The synchronous prefix of `fetchMoreProducts` (lines 109-116): return if
there is no next page or a load is in progress; otherwise set `loading`,
`updateLoadingState`, and issue a fetch of `this.nextPage` (with no abort
signal), tagged with the generation current at issuance. -/
def fetchMoreStart (w : World) : World :=
  if w.ctrl.nextPage.isNone || w.ctrl.loading then w
  else
    let c := updateLoadingState { w.ctrl with loading := true }
    { w with ctrl := c, pendingCont := w.pendingCont ++ [w.ctrl.gen] }

/-- The continuation of `fetchMoreProducts` (lines 117-129): on success append
the page's results to `products`, set `nextPage`, clear `loading`,
`updateList`; the catch block (which does not distinguish error kinds) clears
`loading` and calls `updateList`, leaving `products` and `nextPage` alone. -/
def fetchMoreDone (o : Outcome) (c : CtrlState) : CtrlState :=
  match o with
  | .ok data => updateList { c with products := c.products ++ data.results, nextPage := data.next, loading := false }
  | _ => updateList { c with loading := false }

/-- Translation of `disconnectedCallback` (lines 35-39), which only runs
`this.observer.disconnect()` when the observer exists.  The observer reference is kept, the debounce
timer is not cleared, and the abort controller is not signalled. -/
def disconnectedCallback (c : CtrlState) : CtrlState :=
  let c1 := match c.observer with
    | some k => { c with liveObs := c.liveObs.erase k, obsLog := c.obsLog ++ [ObsOp.disconnect k] }
    | none => c
  { c1 with connected := false }

/-- Event-loop callbacks.  `input term` is the input (or clear-button) listener
calling `handleSearch term`; `debounceFire` is the armed debounce timer
elapsing; `freshDone g o` is the completion of the `fetchProducts` request of
generation `g`; `moreDone i o` is the completion of the `i`-th pending
`fetchMoreProducts` request; `sentinelVisible` is the IntersectionObserver
callback firing with an intersecting entry. -/
inductive Ev where
  | connect
  | disconnect
  | input (term : String)
  | debounceFire
  | freshDone (g : Nat) (o : Outcome)
  | moreDone (i : Nat) (o : Outcome)
  | sentinelVisible
deriving DecidableEq, Repr

/-- One event-loop callback, or `none` when the event cannot occur in `w`:
a completion must correspond to a pending request; per the platform semantics
of `AbortController`/`fetch`, a fresh request delivers `AbortError` exactly
when its controller was aborted (that is, when a newer `fetchProducts` ran
first), and a continuation request, carrying no signal, never delivers
`AbortError`; the visibility callback requires a live observer; the element's
input listeners only fire while it is attached. -/
def step (w : World) (e : Ev) : Option World :=
  match e with
  | .connect =>
      if w.ctrl.connected then none
      else
        let c := { w.ctrl with connected := true, renders := w.ctrl.renders ++ [RenderEv.full] }
        some (fetchProductsStart ("") { w with ctrl := c })
  | .disconnect =>
      if w.ctrl.connected then some { w with ctrl := disconnectedCallback w.ctrl }
      else none
  | .input term =>
      if w.ctrl.connected then
        some { w with ctrl := { w.ctrl with debounce := some term } }
      else none
  | .debounceFire =>
      match w.ctrl.debounce with
      | some term =>
          let c := { w.ctrl with debounce := none, products := [], nextPage := none }
          some (fetchProductsStart term { w with ctrl := c })
      | none => none
  | .freshDone g o =>
      match w.pendingFresh.find? (fun p => p.1 == g) with
      | some _ =>
          if (decide (g < w.ctrl.gen)) == (o == Outcome.errAbort) then
            let pages := match o with
              | .ok data => if g == w.ctrl.gen then [data.results] else w.pages
              | _ => w.pages
            some { w with ctrl := fetchProductsDone o w.ctrl
                          pendingFresh := w.pendingFresh.eraseP (fun p => p.1 == g)
                          pages := pages }
          else none
      | none => none
  | .moreDone i o =>
      match w.pendingCont[i]? with
      | some tag =>
          if o == Outcome.errAbort then none
          else
            let pages := match o with
              | .ok data => if tag == w.ctrl.gen then w.pages ++ [data.results] else w.pages
              | _ => w.pages
            some { w with ctrl := fetchMoreDone o w.ctrl
                          pendingCont := w.pendingCont.eraseIdx i
                          pages := pages }
      | none => none
  | .sentinelVisible =>
      if w.ctrl.liveObs.isEmpty then none
      else if w.ctrl.nextPage.isSome && !w.ctrl.loading then some (fetchMoreStart w)
      else some w

/-- The freshly constructed element before `connectedCallback`. -/
def initCtrl : CtrlState :=
  { products := []
    loading := false
    nextPage := none
    gen := 0
    debounce := none
    observer := none
    nextObsId := 0
    liveObs := []
    obsLog := []
    renders := []
    connected := false }

/-- The initial world: fresh element, nothing in flight. -/
def initWorld : World :=
  { ctrl := initCtrl, pendingFresh := [], pendingCont := [], pages := [] }

/-- Run an event trace from the initial world; `none` if some event was not
enabled at its point in the trace. -/
def run (evs : List Ev) : Option World :=
  evs.foldlM step initWorld

/-! Concrete catalog data used by the trace theorems. -/

/-- A sample catalog entry. -/
def prodA : Product := { label := "Plan cadastral", metadata := "https://sitn.ne.ch/geocat/a" }

/-- A second sample catalog entry. -/
def prodB : Product := { label := "Orthophoto", metadata := "https://sitn.ne.ch/geocat/b" }

/-- A first result page whose `next` cursor points to a second page. -/
def pageA : ApiResponse :=
  { count := 3, next := some ("https://sitn.ne.ch/geoshop2_api/product/?page=2"), previous := none, results := [prodA] }

/-- A continuation page that still has a further page. -/
def pageB : ApiResponse :=
  { count := 3, next := some ("https://sitn.ne.ch/geoshop2_api/product/?page=3"), previous := some ("p1"), results := [prodB] }

/-- A final continuation page (`next = null`). -/
def lastPage : ApiResponse :=
  { count := 2, next := none, previous := some ("p1"), results := [prodB] }

/-- An empty result page. -/
def emptyPage : ApiResponse :=
  { count := 0, next := none, previous := none, results := [] }

/-- Interleaving in which a continuation issued under generation 1 completes
after the debounced search has started generation 2: attach, first page
arrives with a next cursor, the sentinel becomes visible (continuation
issued), the user types, the debounce fires (clearing state and starting the
generation-2 fetch), and only then does the stale continuation complete. -/
def c1trace : List Ev :=
  [.connect, .freshDone 1 (.ok pageA), .sentinelVisible, .input ("plan"),
   .debounceFire, .moreDone 0 (.ok pageB)]

/-- Claim C1, settled as a code bug: the claimed invariant — `items` is
exactly the concatenation of the pages fetched for the current generation,
stale responses being discarded — fails on the code.  `fetchMoreProducts`
passes no abort signal and performs no staleness check, so in `c1trace` the
continuation page fetched under generation 1 is appended to the
generation-2 result list: the final state has `products = [prodB]` and
`nextPage` pointing at the old search's page 3, while the current
generation (2) has fetched no page at all (`pages.flatten = []`). -/
theorem c1_items_invariant_violated_by_stale_continuation :
    (run c1trace).map (fun w => (w.ctrl.products, w.pages.flatten, w.ctrl.gen, w.ctrl.nextPage))
      = some ([prodB], [], 2, some ("https://sitn.ne.ch/geoshop2_api/product/?page=3")) := by
  rfl

/-- The first four events of `c3trace`: attach, empty first page, a keystroke
arming the debounce, then detach. -/
def c3preTrace : List Ev := [.connect, .freshDone 1 (.ok emptyPage), .input ("plan"), .disconnect]

/-- Trace `c3preTrace` continued past the detach: the debounce timer fires and the
fetch it issued completes. -/
def c3trace : List Ev :=
  [.connect, .freshDone 1 (.ok emptyPage), .input ("plan"), .disconnect,
   .debounceFire, .freshDone 2 (.ok pageA)]

/-- Claim C3, settled as a code bug: `disconnectedCallback` only disconnects
the observer — it neither clears `debounceTimer` nor aborts
`abortController` — so callbacks do fire after detach.  At the end of
`c3preTrace` the widget is detached with the debounce still armed
(the debounce field holds the last term); the two post-detach events of `c3trace` are then
enabled, and they mutate state: the debounce callback clears the list and
issues a fetch, whose completion installs `products = [prodA]` and renders. -/
theorem c3_callbacks_fire_after_detach :
    (run c3preTrace).map (fun w => (w.ctrl.connected, w.ctrl.products, w.ctrl.debounce, w.pendingFresh))
        = some (false, [], some ("plan"), [])
      ∧ (run c3trace).map (fun w => (w.ctrl.connected, w.ctrl.products, w.ctrl.loading))
        = some (false, [prodA], false) := by
  exact ⟨rfl, rfl⟩

/-- Interleaving for claim C4: as in `c1trace`, a stale continuation page is
merged after the generation-2 search started; the generation-2 fresh request
then fails with a network error. -/
def c4trace : List Ev :=
  [.connect, .freshDone 1 (.ok pageA), .sentinelVisible, .input ("plan"),
   .debounceFire, .moreDone 0 (.ok pageB), .freshDone 2 .errNetwork]

/-- Counterexample to claim C4 as stated: the catch block of `fetchProducts`
never assigns `products`, so a non-cancellation failure of the current
generation's fresh request does not establish `items = []`.  In `c4trace`
the generation-2 request fails with a network error while `products` holds
the stale continuation page, and the failure handler leaves
`products = [prodB] ≠ []`. -/
theorem c4_fresh_failure_items_not_cleared :
    (run c4trace).map (fun w => (w.ctrl.products, w.ctrl.loading)) = some ([prodB], false) := by
  rfl

/-- Trace for claim C5: a first page with a next cursor attaches the observer;
the continuation returns the final page (`next = null`). -/
def c5trace : List Ev :=
  [.connect, .freshDone 1 (.ok pageA), .sentinelVisible, .moreDone 0 (.ok lastPage)]

/-- Counterexample to claim C5 as stated: a render whose state has
`continuationCursor = null` does not detach the observation.  `updateList`
only touches the observer through `setupIntersectionObserver`, which it calls
only when a sentinel is appended; in `c5trace` the final render has
`nextPage = none`, yet observer instance 0 is still attached
(`observer = some 0`, `liveObs = [0]`). -/
theorem c5_null_cursor_render_observer_not_detached :
    (run c5trace).map (fun w => (w.ctrl.nextPage, w.ctrl.observer, w.ctrl.liveObs))
      = some (none, some 0, [0]) := by
  rfl

/-- The first two events of `c6trace`: the state immediately before the
continuation attempt has `products = [prodA]` and the page-2 cursor. -/
def c6preTrace : List Ev := [.connect, .freshDone 1 (.ok pageA)]

/-- Trace `c6preTrace` continued: the sentinel triggers a continuation, a debounced
search clears the state while that continuation is in flight, and the
continuation then fails. -/
def c6trace : List Ev :=
  [.connect, .freshDone 1 (.ok pageA), .sentinelVisible, .input ("plan"),
   .debounceFire, .moreDone 0 .errNetwork]

/-- Counterexample to claim C6 as stated: when another event intervenes
between a continuation attempt and its failure, `items` and
`continuationCursor` after the failure handler do not equal their values from
immediately before the attempt.  Before the attempt (`c6preTrace`) they are
`([prodA], some page2url)`; after the interleaved search and the failure
(`c6trace`) they are `([], none)`. -/
theorem c6_continuation_failure_after_new_search :
    (run c6preTrace).map (fun w => (w.ctrl.products, w.ctrl.nextPage))
        = some ([prodA], some ("https://sitn.ne.ch/geoshop2_api/product/?page=2"))
      ∧ (run c6trace).map (fun w => (w.ctrl.products, w.ctrl.nextPage, w.ctrl.loading))
        = some ([], none, false) := by
  exact ⟨rfl, rfl⟩

/-- Fields of the state that `updateList` never assigns: it only appends one
render event and (possibly) reattaches the observer. -/
theorem updateList_fields (c : CtrlState) :
    (updateList c).products = c.products ∧ (updateList c).nextPage = c.nextPage ∧
      (updateList c).loading = c.loading ∧
      (updateList c).renders = c.renders ++ [renderListEv c] := by
  unfold updateList
  split
  · unfold setupIntersectionObserver
    cases h : c.observer <;> simp [h]
  · simp

/-- Claim C2, confirmed: a fresh-search response for a superseded generation
never alters the visible state.  `fetchProducts` aborts the previous
controller before starting the next request, so (per the platform semantics
encoded in `step`) a fresh request whose generation is below the current one
completes with `AbortError`, and the catch block returns before touching any
field or emitting any render. -/
theorem c2_stale_fresh_response_no_visible_change :
    ∀ (w w' : World) (g : Nat) (o : Outcome),
      g < w.ctrl.gen → step w (.freshDone g o) = some w' → w'.ctrl = w.ctrl := by
  intro w w' g o hg hstep
  simp only [step] at hstep
  rcases hf : w.pendingFresh.find? (fun p => p.1 == g) with _ | pr
  · rw [hf] at hstep
    cases hstep
  · simp only [hf] at hstep
    split at hstep
    · rename_i hc
      have ho : o = Outcome.errAbort := by
        have hd := eq_of_beq hc
        rw [decide_eq_true hg] at hd
        exact eq_of_beq hd.symm
      subst ho
      cases hstep
      rfl
    · cases hstep

/-- Stale world used to witness the C2 theorem: generation 2 is current while
the generation-1 fresh request is still unresolved. -/
def w2stale : World :=
  { ctrl := { initCtrl with gen := 2 }, pendingFresh := [(1, "")], pendingCont := [], pages := [] }

/-- Result of delivering the stale generation-1 response in `w2stale`. -/
def w2staleAfter : World := (step w2stale (.freshDone 1 .errAbort)).getD initWorld

/-- Witness for the C2 theorem at a concrete stale arrival. -/
theorem c2_stale_fresh_response_no_visible_change_witness :
    step w2stale (.freshDone 1 .errAbort) = some w2staleAfter ∧ w2staleAfter.ctrl = w2stale.ctrl :=
  ⟨rfl, c2_stale_fresh_response_no_visible_change w2stale w2staleAfter 1 .errAbort (by decide) rfl⟩

/-- Claim C7, confirmed: when a continuation completes successfully on a state
whose items are `prev`, the success handler leaves `items = prev ++ page.items`
in order, installs the page's `next` cursor, and clears `isLoading`. -/
theorem c7_continuation_success_appends :
    ∀ (w w' : World) (i : Nat) (data : ApiResponse),
      step w (.moreDone i (.ok data)) = some w' →
      w'.ctrl.products = w.ctrl.products ++ data.results ∧
        w'.ctrl.nextPage = data.next ∧ w'.ctrl.loading = false := by
  intro w w' i data hstep
  simp only [step] at hstep
  rcases hc : w.pendingCont[i]? with _ | tag
  · rw [hc] at hstep
    cases hstep
  · simp only [hc] at hstep
    rw [if_neg (by rw [show (Outcome.ok data == Outcome.errAbort) = false from rfl]; exact Bool.false_ne_true)] at hstep
    cases hstep
    have h := updateList_fields
      { w.ctrl with products := w.ctrl.products ++ data.results, nextPage := data.next, loading := false }
    exact ⟨h.1, h.2.1, h.2.2.1⟩

/-- World used to witness the C7 theorem: one continuation (issued under the
current generation) is in flight. -/
def w7cont : World :=
  { ctrl := { initCtrl with
              products := [prodA]
              loading := true
              gen := 1
              nextPage := some ("https://sitn.ne.ch/geoshop2_api/product/?page=2") }
    pendingFresh := []
    pendingCont := [1]
    pages := [[prodA]] }

/-- Result of the continuation in `w7cont` returning `pageB`. -/
def w7contAfter : World := (step w7cont (.moreDone 0 (.ok pageB))).getD initWorld

/-- Witness for the C7 theorem at a concrete successful continuation. -/
theorem c7_continuation_success_appends_witness :
    w7contAfter.ctrl.products = w7cont.ctrl.products ++ pageB.results ∧
      w7contAfter.ctrl.nextPage = pageB.next ∧ w7contAfter.ctrl.loading = false :=
  c7_continuation_success_appends w7cont w7contAfter 0 pageB (by decide)

/-- Claim C8, confirmed: `fetchMoreProducts` returns before issuing a request
or changing any state whenever there is no continuation cursor or a load is
already in progress; in particular (second conjunct) a second call issued
right after a first one is always a no-op, because the first either issued
nothing or left `loading = true`. -/
theorem c8_loadMore_noop_guard :
    (∀ w : World, w.ctrl.nextPage = none ∨ w.ctrl.loading = true → fetchMoreStart w = w)
      ∧ ∀ w : World, fetchMoreStart (fetchMoreStart w) = fetchMoreStart w := by
  constructor
  · intro w h
    unfold fetchMoreStart
    rcases h with h | h <;> rw [h] <;> simp
  · intro w
    by_cases h : (w.ctrl.nextPage.isNone || w.ctrl.loading) = true
    · rw [show fetchMoreStart w = w from by unfold fetchMoreStart; rw [if_pos h]]
      unfold fetchMoreStart
      rw [if_pos h]
    · have h1 : fetchMoreStart w
          = { w with ctrl := updateLoadingState { w.ctrl with loading := true }
                     pendingCont := w.pendingCont ++ [w.ctrl.gen] } := by
        unfold fetchMoreStart
        rw [if_neg h]
      rw [h1]
      unfold fetchMoreStart
      rw [if_pos (by simp [updateLoadingState])]

/-- Witness for the C8 theorem: in the initial world there is no continuation
cursor, so `fetchMoreProducts` is a no-op, and so is calling it twice. -/
theorem c8_loadMore_noop_guard_witness :
    fetchMoreStart initWorld = initWorld
      ∧ fetchMoreStart (fetchMoreStart initWorld) = fetchMoreStart initWorld :=
  ⟨c8_loadMore_noop_guard.1 initWorld (Or.inl rfl), c8_loadMore_noop_guard.2 initWorld⟩

/-- Claim C4 as amended: when the current generation's fresh request fails
with a network or parse error, the catch block sets `isLoading = false` and
emits a render of the current state (the empty/no-results render whenever
`items` is empty), but it leaves `items` and `continuationCursor` unchanged
rather than assigning `items = []`; a cancellation (`AbortError`) makes the
handler return with no state change and no render. -/
theorem c4_fresh_failure_state_amended :
    (∀ (w w' : World) (g : Nat) (o : Outcome),
        ¬ g < w.ctrl.gen → step w (.freshDone g o) = some w' →
        (o = .errNetwork ∨ o = .errParse) →
        w'.ctrl.products = w.ctrl.products ∧ w'.ctrl.nextPage = w.ctrl.nextPage ∧
          w'.ctrl.loading = false ∧
          w'.ctrl.renders = w.ctrl.renders ++ [renderListEv { w.ctrl with loading := false }])
      ∧ ∀ c : CtrlState, fetchProductsDone .errAbort c = c := by
  constructor
  · intro w w' g o hg hstep ho
    simp only [step] at hstep
    rcases hf : w.pendingFresh.find? (fun p => p.1 == g) with _ | pr
    · rw [hf] at hstep
      cases hstep
    · simp only [hf] at hstep
      split at hstep
      · cases hstep
        rcases ho with ho | ho <;> subst ho <;>
          exact
            (fun h => ⟨h.1, h.2.1, h.2.2.1, h.2.2.2⟩)
            (updateList_fields { w.ctrl with loading := false })
      · cases hstep
  · intro c
    rfl

/-- World used to witness the C4 amended theorem: the generation-1 fresh
request is current and in flight. -/
def w4fail : World :=
  { ctrl := { initCtrl with gen := 1, loading := true }
    pendingFresh := [(1, "plan")]
    pendingCont := []
    pages := [] }

/-- Result of the fresh request in `w4fail` failing with a network error. -/
def w4failAfter : World := (step w4fail (.freshDone 1 .errNetwork)).getD initWorld

/-- Witness for the C4 amended theorem at a concrete network failure and a
concrete cancellation. -/
theorem c4_fresh_failure_state_amended_witness :
    (w4failAfter.ctrl.products = w4fail.ctrl.products ∧
        w4failAfter.ctrl.nextPage = w4fail.ctrl.nextPage ∧
        w4failAfter.ctrl.loading = false ∧
        w4failAfter.ctrl.renders
          = w4fail.ctrl.renders ++ [renderListEv { w4fail.ctrl with loading := false }])
      ∧ fetchProductsDone .errAbort initCtrl = initCtrl :=
  ⟨c4_fresh_failure_state_amended.1 w4fail w4failAfter 1 .errNetwork (by decide) (by decide)
      (Or.inl rfl),
    c4_fresh_failure_state_amended.2 initCtrl⟩

/-- Claim C6 as amended: the catch block of `fetchMoreProducts` touches
neither `items` nor `continuationCursor` and resets `isLoading` to false
(first conjunct); consequently, when the failure arrives with no other event
interleaved after the attempt started, `items` and `continuationCursor`
equal their values from immediately before the attempt (second conjunct).
When another event does intervene (see the counterexample), the pre-attempt
values need not be restored. -/
theorem c6_continuation_failure_frame_amended :
    (∀ (c : CtrlState) (o : Outcome), o.isError = true →
        (fetchMoreDone o c).products = c.products ∧
          (fetchMoreDone o c).nextPage = c.nextPage ∧
          (fetchMoreDone o c).loading = false)
      ∧ ∀ (w w1 w2 : World) (i : Nat) (o : Outcome),
          w.ctrl.nextPage.isSome = true → w.ctrl.loading = false →
          step w .sentinelVisible = some w1 → o.isError = true →
          step w1 (.moreDone i o) = some w2 →
          w2.ctrl.products = w.ctrl.products ∧ w2.ctrl.nextPage = w.ctrl.nextPage ∧
            w2.ctrl.loading = false := by
  have hframe : ∀ (c : CtrlState) (o : Outcome), o.isError = true →
      (fetchMoreDone o c).products = c.products ∧
        (fetchMoreDone o c).nextPage = c.nextPage ∧
        (fetchMoreDone o c).loading = false := by
    intro c o ho
    cases o with
    | ok data => cases ho
    | errNetwork =>
        exact (fun h => ⟨h.1, h.2.1, h.2.2.1⟩) (updateList_fields { c with loading := false })
    | errParse =>
        exact (fun h => ⟨h.1, h.2.1, h.2.2.1⟩) (updateList_fields { c with loading := false })
    | errAbort =>
        exact (fun h => ⟨h.1, h.2.1, h.2.2.1⟩) (updateList_fields { c with loading := false })
  refine ⟨hframe, ?_⟩
  intro w w1 w2 i o hn hl hstep1 ho hstep2
  have hw1 : w1.ctrl.products = w.ctrl.products ∧ w1.ctrl.nextPage = w.ctrl.nextPage := by
    simp only [step] at hstep1
    split at hstep1
    · cases hstep1
    · rw [if_pos (by rw [hn, hl]; rfl)] at hstep1
      cases hstep1
      unfold fetchMoreStart
      split
      · exact ⟨rfl, rfl⟩
      · exact ⟨rfl, rfl⟩
  simp only [step] at hstep2
  rcases hc : w1.pendingCont[i]? with _ | tag
  · rw [hc] at hstep2
    cases hstep2
  · simp only [hc] at hstep2
    split at hstep2
    · cases hstep2
    · cases hstep2
      have h := hframe w1.ctrl o ho
      exact ⟨h.1.trans hw1.1, h.2.1.trans hw1.2, h.2.2⟩

/-- World used to witness the C6 amended theorem: one result page is shown, a
next cursor and a live observer exist, so a continuation attempt can start. -/
def w6cont : World :=
  { ctrl := { initCtrl with
              products := [prodA]
              nextPage := some ("https://sitn.ne.ch/geoshop2_api/product/?page=2")
              gen := 1
              observer := some 0
              nextObsId := 1
              liveObs := [0]
              connected := true }
    pendingFresh := []
    pendingCont := []
    pages := [[prodA]] }

/-- State of `w6cont` right after the sentinel triggers the continuation. -/
def w6contMid : World := (step w6cont .sentinelVisible).getD initWorld

/-- State after the continuation issued in `w6cont` fails. -/
def w6contAfter : World := (step w6contMid (.moreDone 0 .errNetwork)).getD initWorld

/-- Witness for the C6 amended theorem at a concrete failed continuation. -/
theorem c6_continuation_failure_frame_amended_witness :
    w6contAfter.ctrl.products = w6cont.ctrl.products ∧
      w6contAfter.ctrl.nextPage = w6cont.ctrl.nextPage ∧
      w6contAfter.ctrl.loading = false :=
  c6_continuation_failure_frame_amended.2 w6cont w6contMid w6contAfter 0 .errNetwork
    (by decide) (by decide) (by decide) (by decide) (by decide)

/-- Observer-related fields of `updateList` when a sentinel is appended: the
observer is replaced by a fresh instance, the previous one (if any) being
disconnected first. -/
theorem updateList_observer_fields (c : CtrlState) :
    (!c.products.isEmpty && c.nextPage.isSome) = true →
    (updateList c).observer = some c.nextObsId ∧
      (updateList c).liveObs = (match c.observer with
        | some k => (c.liveObs.erase k) ++ [c.nextObsId]
        | none => c.liveObs ++ [c.nextObsId]) ∧
      (updateList c).obsLog = (match c.observer with
        | some k => c.obsLog ++ [ObsOp.disconnect k, ObsOp.observe c.nextObsId]
        | none => c.obsLog ++ [ObsOp.observe c.nextObsId]) := by
  intro hguard
  unfold updateList
  rw [if_pos hguard]
  unfold setupIntersectionObserver
  cases hobs : c.observer <;> simp [hobs]

/-- Claim C5 as amended: a successful render with non-empty items and a
continuation cursor re-attaches the observation to the new sentinel, the
previous observation (when one is live) being released first, so at most one
observer instance stays live; but a render whose state has
`continuationCursor = null` (or no items) does not detach the previous
observation — `updateList` leaves the observer exactly as it was, and the
observation is only released by the next re-attach or by widget detach. -/
theorem c5_observer_reattach_amended :
    (∀ c : CtrlState, c.products ≠ [] → c.nextPage.isSome = true →
        c.liveObs.length ≤ 1 → (∀ j ∈ c.liveObs, c.observer = some j) →
        (updateList c).observer = some c.nextObsId ∧
          (updateList c).liveObs = [c.nextObsId] ∧
          (∀ k, c.observer = some k →
            (updateList c).obsLog = c.obsLog ++ [ObsOp.disconnect k, ObsOp.observe c.nextObsId]) ∧
          (c.observer = none → (updateList c).obsLog = c.obsLog ++ [ObsOp.observe c.nextObsId]))
      ∧ ∀ c : CtrlState, c.nextPage = none ∨ c.products = [] →
          (updateList c).observer = c.observer ∧ (updateList c).liveObs = c.liveObs ∧
            (updateList c).obsLog = c.obsLog := by
  constructor
  · intro c hp hn hlen hall
    have hguard : (!c.products.isEmpty && c.nextPage.isSome) = true := by
      rw [hn]
      cases hcp : c.products with
      | nil => exact absurd hcp hp
      | cons a l => rfl
    obtain ⟨ho1, ho2, ho3⟩ := updateList_observer_fields c hguard
    refine ⟨ho1, ?_, ?_, ?_⟩
    · rw [ho2]
      cases hobs : c.observer with
      | none =>
          have hlive : c.liveObs = [] := by
            cases hl : c.liveObs with
            | nil => rfl
            | cons j js =>
                have hj := hall j (by rw [hl]; exact List.mem_cons_self j js)
                rw [hobs] at hj
                cases hj
          show c.liveObs ++ [c.nextObsId] = [c.nextObsId]
          rw [hlive]
          rfl
      | some k =>
          have hlive : c.liveObs.erase k = [] := by
            cases hl : c.liveObs with
            | nil => rfl
            | cons j js =>
                cases js with
                | nil =>
                    have hj := hall j (by rw [hl]; exact List.mem_cons_self j [])
                    rw [hobs] at hj
                    cases hj
                    simp
                | cons j2 js2 =>
                    rw [hl] at hlen
                    simp at hlen
          show c.liveObs.erase k ++ [c.nextObsId] = [c.nextObsId]
          rw [hlive]
          rfl
    · intro k hk
      rw [ho3, hk]
    · intro hk
      rw [ho3, hk]
  · intro c h
    have hguard : (!c.products.isEmpty && c.nextPage.isSome) = false := by
      rcases h with h | h <;> rw [h] <;> simp
    unfold updateList
    rw [if_neg (by rw [hguard]; exact Bool.false_ne_true)]
    exact ⟨rfl, rfl, rfl⟩

/-- State used to witness the C5 amended theorem: a live observer (instance 5)
exists while a new page with a next cursor is rendered. -/
def c5reattachState : CtrlState :=
  { initCtrl with
    products := [prodA]
    nextPage := some ("https://sitn.ne.ch/geoshop2_api/product/?page=2")
    observer := some 5
    liveObs := [5]
    nextObsId := 6 }

/-- Witness for the C5 amended theorem: a concrete re-attach (releasing
observer 5 before attaching observer 6) and a concrete cursor-free render
that leaves the observer untouched. -/
theorem c5_observer_reattach_amended_witness :
    ((updateList c5reattachState).observer = some 6 ∧
        (updateList c5reattachState).liveObs = [6] ∧
        (updateList c5reattachState).obsLog
          = c5reattachState.obsLog ++ [ObsOp.disconnect 5, ObsOp.observe 6])
      ∧ ((updateList initCtrl).observer = initCtrl.observer ∧
          (updateList initCtrl).liveObs = initCtrl.liveObs ∧
          (updateList initCtrl).obsLog = initCtrl.obsLog) :=
  ⟨⟨(c5_observer_reattach_amended.1 c5reattachState (by decide) (by decide) (by decide)
        (by decide)).1,
      (c5_observer_reattach_amended.1 c5reattachState (by decide) (by decide) (by decide)
        (by decide)).2.1,
      (c5_observer_reattach_amended.1 c5reattachState (by decide) (by decide) (by decide)
        (by decide)).2.2.1 5 rfl⟩,
    c5_observer_reattach_amended.2 initCtrl (Or.inl rfl)⟩

/-- Timed model of `handleSearch` (lines 62-72) over a timeline of input
events `(t, term)` sorted by time: each call runs `clearTimeout` on the
pending debounce timer and arms a new 300 ms timer for its own term.  The
timer armed at time `t` therefore fires (at `t + 300`, invoking the debounce
callback with that call's term) exactly when no further call occurs strictly
before `t + 300`; the result lists the fired invocations in order. -/
def firedInvocations : List (Nat × String) → List (Nat × String)
  | [] => []
  | [c] => [(c.1 + 300, c.2)]
  | c :: c2 :: rest =>
      if c.1 + 300 ≤ c2.1 then (c.1 + 300, c.2) :: firedInvocations (c2 :: rest)
      else firedInvocations (c2 :: rest)

/-- Claim C9, confirmed.  First conjunct: for a non-empty sequence of
`handleSearch` calls in which every call arrives strictly less than 300 ms
after the previous one, exactly one debounce invocation ultimately fires,
and it carries the last call's term.  Second conjunct: the debounce callback
firing with term `t` issues exactly one fetch, for `t` (it appends exactly
one fresh request, carrying that term, to the in-flight set). -/
theorem c9_debounce_single_fetch_last_term :
    (∀ (c : Nat × String) (cs : List (Nat × String)) (last : Nat × String),
        List.Chain' (fun a b => b.1 < a.1 + 300) (c :: cs) →
        (c :: cs).getLast? = some last →
        firedInvocations (c :: cs) = [(last.1 + 300, last.2)])
      ∧ ∀ (w w' : World) (term : String),
          w.ctrl.debounce = some term → step w .debounceFire = some w' →
          w'.pendingFresh = w.pendingFresh ++ [(w.ctrl.gen + 1, term)] := by
  constructor
  · intro c cs
    induction cs generalizing c with
    | nil =>
        intro last _ hlast
        rw [List.getLast?_singleton] at hlast
        cases hlast
        rfl
    | cons c2 rest ih =>
        intro last hchain hlast
        rw [List.chain'_cons] at hchain
        rw [List.getLast?_cons_cons] at hlast
        have hno : ¬ c.1 + 300 ≤ c2.1 := by
          have := hchain.1
          omega
        show (if c.1 + 300 ≤ c2.1 then (c.1 + 300, c.2) :: firedInvocations (c2 :: rest)
              else firedInvocations (c2 :: rest)) = _
        rw [if_neg hno]
        exact ih c2 last hchain.2 hlast
  · intro w w' term hdeb hstep
    simp only [step] at hstep
    rw [hdeb] at hstep
    cases hstep
    rfl

/-- Input timeline used to witness the C9 theorem: three keystrokes at 0 ms,
200 ms and 350 ms, each less than 300 ms after the previous one. -/
def c9calls : List (Nat × String) := [(0, "p"), (200, "pl"), (350, "plan")]

/-- World used to witness the C9 theorem's second conjunct: the debounce is
armed with the final term. -/
def w9deb : World :=
  { ctrl := { initCtrl with debounce := some ("plan"), connected := true }
    pendingFresh := []
    pendingCont := []
    pages := [] }

/-- Result of the armed debounce timer firing in `w9deb`. -/
def w9debAfter : World := (step w9deb .debounceFire).getD initWorld

/-- Witness for the C9 theorem: on `c9calls` exactly one invocation fires, at
650 ms, carrying the last term, and the concrete debounce fire issues exactly
one fresh request for that term. -/
theorem c9_debounce_single_fetch_last_term_witness :
    firedInvocations c9calls = [(650, "plan")]
      ∧ w9debAfter.pendingFresh = w9deb.pendingFresh ++ [(w9deb.ctrl.gen + 1, "plan")] :=
  ⟨c9_debounce_single_fetch_last_term.1 (0, "p") [(200, "pl"), (350, "plan")] (350, "plan")
      (by simp [List.chain'_cons]) (by decide),
    c9_debounce_single_fetch_last_term.2 w9deb w9debAfter "plan" rfl (by decide)⟩

/-- Claim C10, confirmed: every rendered result row carries, both as the
anchor's `href` and as the `window.open` target of its click handler, the
item's `metadata` string with the suffix appended by the source
(`${product.metadata}/html/`), which is never equal to the metadata URL
itself. -/
theorem c10_navigation_url_appends_html_suffix :
    (∀ ps : List Product,
        (renderItems ps).map (fun r => r.href) = ps.map (fun p => p.metadata ++ "/html/")
          ∧ (renderItems ps).map (fun r => r.clickUrl) = ps.map (fun p => p.metadata ++ "/html/"))
      ∧ ∀ (idx : Nat) (p : Product),
          (renderItem idx p).href = p.metadata ++ "/html/"
            ∧ (renderItem idx p).clickUrl = (renderItem idx p).href
            ∧ ((renderItem idx p).href == p.metadata) = false := by
  constructor
  · intro ps
    constructor
    · show (ps.enum.map (fun ip => renderItem ip.1 ip.2)).map (fun r => r.href) = _
      rw [List.map_map]
      rw [show ((fun r : RenderedItem => r.href) ∘ fun ip : Nat × Product => renderItem ip.1 ip.2)
            = ((fun p : Product => p.metadata ++ "/html/") ∘ Prod.snd) from rfl]
      rw [← List.map_map, List.enum_map_snd]
    · show (ps.enum.map (fun ip => renderItem ip.1 ip.2)).map (fun r => r.clickUrl) = _
      rw [List.map_map]
      rw [show ((fun r : RenderedItem => r.clickUrl) ∘ fun ip : Nat × Product => renderItem ip.1 ip.2)
            = ((fun p : Product => p.metadata ++ "/html/") ∘ Prod.snd) from rfl]
      rw [← List.map_map, List.enum_map_snd]
  · intro idx p
    refine ⟨rfl, rfl, beq_eq_false_iff_ne.mpr ?_⟩
    intro h
    have h1 : p.metadata ++ ("/html/") = p.metadata := h
    have h2 := congrArg String.length h1
    rw [String.length_append] at h2
    rw [show ("/html/" : String).length = 6 from rfl] at h2
    omega
